import Mathlib

/-!
Verification of the BigQuery table-comparison tool
(`3_bigquery_utils/compare_table_contents.py`).

The Python functions are shallowly embedded as Lean functions over `String`
(logically a list of characters).  Python truthiness of optional string /
integer arguments is modelled explicitly (`truthyS`, `truthyN`): `None`, the
empty string and `0` are falsy.  The stateful driver `execute_comparison` is
modelled as a pure function from an oracle environment (the answers the
BigQuery client would return) to a final outcome together with the trace of
issued queries.
-/

/-! ## Python string primitives -/

/-- Python `str` whitespace characters (as used by `str.strip`). -/
def pySpace (c : Char) : Bool :=
  (c == ' ') || (c == '\t') || (c == '\n') || (c == '\r') || (c == '\x0b') || (c == '\x0c')

/-- Left strip on character lists (Python `str.lstrip`). -/
def lstripL (l : List Char) : List Char := l.dropWhile pySpace

/-- Right strip on character lists (Python `str.rstrip`). -/
def rstripL (l : List Char) : List Char := (l.reverse.dropWhile pySpace).reverse

/-- Both-ends strip on character lists (Python `str.strip`). -/
def stripL (l : List Char) : List Char := rstripL (lstripL l)

/-- Python `s.strip()`. -/
def pyStrip (s : String) : String := ⟨stripL s.data⟩

/-- Left-only strip at the string level. -/
def lstripS (s : String) : String := ⟨lstripL s.data⟩

/-- Right-only strip at the string level. -/
def rstripS (s : String) : String := ⟨rstripL s.data⟩

/-- Python `s.lower()` (ASCII case folding, which is all the code relies on). -/
def pyLower (s : String) : String := ⟨s.data.map Char.toLower⟩

/-- Python `s.startswith(pre)`. -/
def pyStartsWith (s pre : String) : Bool := pre.data.isPrefixOf s.data

/-- Python `str.split(sep)` for a one-character separator: splits at every
occurrence, keeping empty segments (`"".split(".") == [""]`). -/
def pySplit (sep : Char) : List Char → List (List Char)
  | [] => [[]]
  | c :: rest =>
    let r := pySplit sep rest
    if c = sep then [] :: r
    else
      match r with
      | [] => [[c]]
      | h :: t => (c :: h) :: t

/-- String-level `str.split(sep)`. -/
def pySplitS (sep : Char) (s : String) : List String :=
  (pySplit sep s.data).map (fun l => ⟨l⟩)

/-- Python truthiness of an optional string (`None` and `""` are falsy). -/
def truthyS : Option String → Bool
  | none => false
  | some s => decide (s ≠ "")

/-- Python truthiness of an optional integer (`None` and `0` are falsy). -/
def truthyN : Option Nat → Bool
  | none => false
  | some n => decide (n ≠ 0)

/-- Python truthiness of an optional list-modelled set (empty set is falsy). -/
def truthyL : Option (List String) → Bool
  | none => false
  | some l => !l.isEmpty

/-- Code-point lexicographic comparison of character lists; this is the order
Python uses when comparing and sorting strings. -/
def lexLe : List Char → List Char → Bool
  | [], _ => true
  | _ :: _, [] => false
  | a :: as, b :: bs =>
    if a.toNat < b.toNat then true
    else if b.toNat < a.toNat then false
    else lexLe as bs

/-- The Python string order, as a binary relation. -/
def strLe (a b : String) : Prop := lexLe a.data b.data = true

instance : DecidableRel strLe := fun a b => by unfold strLe; infer_instance

/-- Python `sorted` on a list of strings. -/
def sortStrings (l : List String) : List String := List.insertionSort strLe l

/-- Fuel-driven decimal digit renderer (structural, so it computes in the
kernel); the fuel only needs to dominate the number of digits. -/
def natCharsAux : Nat → Nat → List Char
  | 0, _ => []
  | fuel + 1, n =>
    if n < 10 then [Char.ofNat (48 + n)]
    else natCharsAux fuel (n / 10) ++ [Char.ofNat (48 + n % 10)]

/-- Decimal digits of a natural number (Python `str(n)` / `f"{n}"`). -/
def natChars (n : Nat) : List Char := natCharsAux (n + 1) n

/-- Decimal rendering of a natural number as a string. -/
def natToStr (n : Nat) : String := ⟨natChars n⟩

/-! ## Embedding of `QueryBuilder` -/

/-- `QueryBuilder.normalize_where_clause`: `None`/empty maps to `None`;
otherwise the fragment is stripped and `where ` is prepended unless the
stripped fragment already starts with `where` case-insensitively. -/
def normalize_where_clause (where_clause : Option String) : Option String :=
  match where_clause with
  | none => none
  | some s =>
    if s = "" then none
    else
      let s := pyStrip s
      if pyStartsWith (pyLower s) "where" then some s
      else some ("where " ++ s)

/-- `QueryBuilder.normalize_order_by_clause`: same shape with the
`order by` keyword pair. -/
def normalize_order_by_clause (order_by_clause : Option String) : Option String :=
  match order_by_clause with
  | none => none
  | some s =>
    if s = "" then none
    else
      let s := pyStrip s
      if pyStartsWith (pyLower s) "order by" then some s
      else some ("order by " ++ s)

/-- `QueryBuilder.build_column_list`: explicit column string wins, else the
derived common-column set is sorted and comma-joined, else `*`. -/
def build_column_list (columns : Option String) (common_columns : Option (List String)) : String :=
  if truthyS columns then columns.getD ""
  else if truthyL common_columns then
    String.intercalate ", " (sortStrings (common_columns.getD []))
  else "*"

/-- `QueryBuilder.build_row_count_query`. -/
def build_row_count_query (table : String) (where_clause : Option String) : String :=
  let query := "SELECT COUNT(*) as count FROM " ++ table
  if truthyS where_clause then query ++ " " ++ where_clause.getD "" else query

/-- The `f" {where_clause}" if where_clause else ""` fragment. -/
def wherePartStr (where_clause : Option String) : String :=
  if truthyS where_clause then " " ++ where_clause.getD "" else ""

/-- The local `except_query` f-string inside
`QueryBuilder.build_except_distinct_query` (note the leading newline from the
triple-quoted literal). -/
def exceptQueryStr (table1 table2 columns : String) (where_clause : Option String) : String :=
  let where_part := wherePartStr where_clause
  "\nSELECT " ++ columns ++ " FROM " ++ table1 ++ where_part ++
    "\nEXCEPT DISTINCT\nSELECT " ++ columns ++ " FROM " ++ table2 ++ where_part

/-- `QueryBuilder.build_except_distinct_query`. -/
def build_except_distinct_query (table1 table2 columns : String)
    (where_clause order_by_clause : Option String) (limit : Option Nat)
    (add_source_column : Option String) : String :=
  let except_query := exceptQueryStr table1 table2 columns where_clause
  let query :=
    if truthyS add_source_column || truthyS order_by_clause then
      let outer_select :=
        if truthyS add_source_column then
          "SELECT *, '" ++ add_source_column.getD "" ++ "' as source_table"
        else "SELECT *"
      let q := outer_select ++ " FROM (" ++ except_query ++ ")"
      if truthyS order_by_clause then q ++ " " ++ order_by_clause.getD "" else q
    else except_query
  let query := if truthyN limit then query ++ " LIMIT " ++ natToStr (limit.getD 0) else query
  pyStrip query

/-- `QueryBuilder.build_union_query`. -/
def build_union_query (queries : List String) (order_by_clause : Option String) : String :=
  let union_query := String.intercalate " UNION ALL " (queries.map (fun q => "(" ++ q ++ ")"))
  if truthyS order_by_clause then
    "SELECT * FROM (" ++ union_query ++ ") " ++ order_by_clause.getD ""
  else union_query

/-! ## Embedding of `TableComparator` -/

/-- The SQL text issued by `TableComparator.get_table_schema`. -/
def schemaQueryStr (project dataset table_name : String) : String :=
  "\n        SELECT column_name, data_type \n        FROM `" ++ project ++ "." ++ dataset ++
    ".INFORMATION_SCHEMA.COLUMNS` \n        WHERE table_name = '" ++ table_name ++
    "' \n        ORDER BY ordinal_position\n        "

/-- The SQL text issued by `TableComparator.check_data_differences`. -/
def diffCheckQueryStr (table1 table2 columns : String) (where_clause : Option String) : String :=
  let wp := wherePartStr where_clause
  "\n        SELECT \n          CASE \n            WHEN EXISTS (\n              SELECT " ++
    columns ++ " FROM " ++ table1 ++ wp ++ "\n              EXCEPT DISTINCT\n              SELECT " ++
    columns ++ " FROM " ++ table2 ++ wp ++ "\n            ) OR EXISTS (\n              SELECT " ++
    columns ++ " FROM " ++ table2 ++ wp ++ "\n              EXCEPT DISTINCT\n              SELECT " ++
    columns ++ " FROM " ++ table1 ++ wp ++
    "\n            ) THEN TRUE\n            ELSE FALSE\n          END as has_differences\n        "

/-- Result record of `TableComparator.analyze_schemas`.  Python sets are
modelled as duplicate-free lists; only membership and emptiness of these
fields are ever consumed. -/
structure SchemaAnalysis where
  common_columns : List String
  only_in_table1 : List String
  only_in_table2 : List String
  schema_mismatches : List (String × String × String)
  missing_specified_cols : List String
  schemas_identical : Bool
  deriving DecidableEq

/-- The `[col.strip() for col in specific_columns.split(",")]` list. -/
def specifiedColsOf (specific_columns : String) : List String :=
  (pySplitS ',' specific_columns).map pyStrip

/-- Lookup in `dict(pairs)`: the last pair for a key wins. -/
def dictLookup (schema : List (String × String)) (k : String) : Option String :=
  schema.reverse.lookup k

/-- `TableComparator.analyze_schemas`. -/
def analyze_schemas (schema1 schema2 : List (String × String))
    (specific_columns : Option String) : SchemaAnalysis :=
  let schema1_columns := (schema1.map Prod.fst).dedup
  let schema2_columns := (schema2.map Prod.fst).dedup
  let specified_cols := specifiedColsOf (specific_columns.getD "")
  let common_columns :=
    if truthyS specific_columns then
      specified_cols.dedup.filter
        (fun c => decide (c ∈ schema1_columns) && decide (c ∈ schema2_columns))
    else
      schema1_columns.filter (fun c => decide (c ∈ schema2_columns))
  let missing_cols :=
    if truthyS specific_columns then
      specified_cols.dedup.filter (fun c => decide (c ∉ common_columns))
    else []
  let only_in_table1 := schema1_columns.filter (fun c => decide (c ∉ schema2_columns))
  let only_in_table2 := schema2_columns.filter (fun c => decide (c ∉ schema1_columns))
  let schema_mismatches := common_columns.filterMap (fun c =>
    match dictLookup schema1 c, dictLookup schema2 c with
    | some t1, some t2 => if t1 ≠ t2 then some (c, t1, t2) else none
    | _, _ => none)
  { common_columns := common_columns
    only_in_table1 := only_in_table1
    only_in_table2 := only_in_table2
    schema_mismatches := schema_mismatches
    missing_specified_cols := missing_cols
    schemas_identical :=
      decide (schema1.length = schema2.length) && schema_mismatches.isEmpty &&
        !truthyS specific_columns }

/-! ## Embedding of `execute_comparison` and `main` -/

/-- A query issued against the BigQuery client, tagged with its call site. -/
inductive QEvent where
  | schemaQ (sql : String)
  | rowCountQ (sql : String)
  | existenceQ (sql : String)
  | sampleQ (sql : String)
  | exportQ (sql : String)
  deriving DecidableEq

/-- Terminal outcome of a comparison run. -/
inductive Outcome where
  | pass
  | fail
  | noCommonColumns
  deriving DecidableEq

/-- Oracle environment: the answers the BigQuery client returns to the
queries the run issues. -/
structure BQEnv where
  schema1 : List (String × String)
  schema2 : List (String × String)
  count1 : Nat
  count2 : Nat
  hasDifferences : Bool

/-- `execute_comparison`, modelled as a pure function from the oracle
environment to the outcome and the ordered trace of issued queries. -/
def execute_comparison (env : BQEnv)
    (table1_full table2_full table1_project table1_dataset table1_name
      table2_project table2_dataset table2_name : String)
    (where_clause order_by_clause specific_columns : Option String) :
    Outcome × List QEvent :=
  let where_clause := normalize_where_clause where_clause
  let order_by_clause := normalize_order_by_clause order_by_clause
  let events := [QEvent.schemaQ (schemaQueryStr table1_project table1_dataset table1_name),
                 QEvent.schemaQ (schemaQueryStr table2_project table2_dataset table2_name)]
  let schema_analysis := analyze_schemas env.schema1 env.schema2 specific_columns
  if schema_analysis.common_columns.isEmpty then
    (Outcome.noCommonColumns, events)
  else
    let events := events ++
      [QEvent.rowCountQ (build_row_count_query table1_full where_clause),
       QEvent.rowCountQ (build_row_count_query table2_full where_clause)]
    let columns := build_column_list specific_columns (some schema_analysis.common_columns)
    let events := events ++
      [QEvent.existenceQ (diffCheckQueryStr table1_full table2_full columns where_clause)]
    if !env.hasDifferences then
      (Outcome.pass, events)
    else
      let q1 := build_except_distinct_query table1_full table2_full columns
        where_clause order_by_clause (some 10) none
      let q2 := build_except_distinct_query table2_full table1_full columns
        where_clause order_by_clause (some 10) none
      let e1 := build_except_distinct_query table1_full table2_full columns
        where_clause none none (some ("exclusive_to_" ++ table1_name))
      let e2 := build_except_distinct_query table2_full table1_full columns
        where_clause none none (some ("exclusive_to_" ++ table2_name))
      let combined := build_union_query [e1, e2] order_by_clause
      (Outcome.fail, events ++ [QEvent.sampleQ q1, QEvent.sampleQ q2, QEvent.exportQ combined])

/-- `parse_table_path` from `main`: splitting on `.` must yield exactly three
parts (the code checks only the count, not non-emptiness). -/
def parse_table_path (table_path : String) : Except String (String × String × String) :=
  match pySplitS '.' table_path with
  | [a, b, c] => Except.ok (a, b, c)
  | _ => Except.error
      ("Table path must be in format 'project.dataset.table', got: " ++ table_path)

/-- `main`: parse both table paths; on a parse error print and exit with
status 1 issuing no queries; otherwise run the comparison (exit status 0).
The result is (exit code, outcome if reached, issued queries). -/
def main_run (env : BQEnv) (table1 table2 : String)
    (where_clause order_by_clause specific_columns : Option String) :
    Nat × Option Outcome × List QEvent :=
  match parse_table_path table1 with
  | Except.error _ => (1, none, [])
  | Except.ok (p1, d1, n1) =>
    match parse_table_path table2 with
    | Except.error _ => (1, none, [])
    | Except.ok (p2, d2, n2) =>
      let r := execute_comparison env table1 table2 p1 d1 n1 p2 d2 n2
        where_clause order_by_clause specific_columns
      (0, some r.1, r.2)

/-! ## Spec-side combinators (from the specification's wording) -/

/-- Spec wording: the labeled outer projection
`SELECT *, '<label>' as source_table FROM (...)`. -/
def labeledWrap (label inner : String) : String :=
  "SELECT *, '" ++ label ++ "' as source_table FROM (" ++ inner ++ ")"

/-- Spec wording: the plain outer wildcard projection `SELECT * FROM (...)`. -/
def plainWrap (inner : String) : String :=
  "SELECT * FROM (" ++ inner ++ ")"

/-- The inner set-difference query without the leading newline artefact of the
triple-quoted literal. -/
def exceptBodyStr (table1 table2 columns : String) (where_clause : Option String) : String :=
  let where_part := wherePartStr where_clause
  "SELECT " ++ columns ++ " FROM " ++ table1 ++ where_part ++
    "\nEXCEPT DISTINCT\nSELECT " ++ columns ++ " FROM " ++ table2 ++ where_part

/-- A small concrete oracle environment used by the witness theorems. -/
def envW : BQEnv :=
  { schema1 := [("a", "INT64"), ("b", "STRING")]
    schema2 := [("a", "INT64"), ("b", "INT64")]
    count1 := 3
    count2 := 4
    hasDifferences := true }

/-- A concrete oracle environment whose difference check reports no
asymmetric rows. -/
def envW2 : BQEnv :=
  { schema1 := [("a", "INT64")]
    schema2 := [("a", "INT64")]
    count1 := 3
    count2 := 3
    hasDifferences := false }

/-- A concrete oracle environment whose schemas share no column names. -/
def envW3 : BQEnv :=
  { schema1 := [("a", "INT64")]
    schema2 := [("z", "INT64")]
    count1 := 1
    count2 := 1
    hasDifferences := false }

/-! ## Toolkit: stripping, heads and tails of character lists -/

/-- The first character (if any) is not Python whitespace. -/
def okHead (l : List Char) : Bool :=
  match l with
  | [] => true
  | c :: _ => !pySpace c

/-- The last character (if any) is not Python whitespace. -/
def okLast (l : List Char) : Bool := okHead l.reverse

theorem lstripL_eq_self {l : List Char} (h : okHead l = true) : lstripL l = l := by
  cases l with
  | nil => rfl
  | cons c t =>
    have hc : pySpace c = false := by simpa [okHead] using h
    simp [lstripL, List.dropWhile_cons, hc]

theorem okHead_lstripL (l : List Char) : okHead (lstripL l) = true := by
  induction l with
  | nil => rfl
  | cons c t ih =>
    by_cases hc : pySpace c = true
    · simpa [lstripL, List.dropWhile_cons, hc] using ih
    · have hc' : pySpace c = false := by simpa using hc
      simp [lstripL, List.dropWhile_cons, hc', okHead]

theorem rstripL_eq_self {l : List Char} (h : okLast l = true) : rstripL l = l := by
  have h' : okHead l.reverse = true := h
  have := lstripL_eq_self h'
  unfold lstripL at this
  unfold rstripL
  rw [this, List.reverse_reverse]

theorem okLast_rstripL (l : List Char) : okLast (rstripL l) = true := by
  unfold okLast rstripL
  rw [List.reverse_reverse]
  exact okHead_lstripL l.reverse

theorem okHead_rstripL {l : List Char} (h : okHead l = true) : okHead (rstripL l) = true := by
  cases l with
  | nil => rfl
  | cons c t =>
    have hc : pySpace c = false := by simpa [okHead] using h
    by_cases he : (List.dropWhile pySpace t.reverse).isEmpty = true
    · simp [rstripL, List.reverse_cons, List.dropWhile_append, he, List.dropWhile_cons, hc, okHead]
    · simp [rstripL, List.reverse_cons, List.dropWhile_append, he, okHead, hc]

theorem stripL_eq_self {l : List Char} (h1 : okHead l = true) (h2 : okLast l = true) :
    stripL l = l := by
  unfold stripL
  rw [lstripL_eq_self h1, rstripL_eq_self h2]

theorem stripL_idem (l : List Char) : stripL (stripL l) = stripL l := by
  have h1 : okHead (stripL l) = true := okHead_rstripL (okHead_lstripL l)
  have h2 : okLast (stripL l) = true := okLast_rstripL (lstripL l)
  exact stripL_eq_self h1 h2

theorem okHead_append_left {a : List Char} (b : List Char) (ha : a ≠ [])
    (h : okHead a = true) : okHead (a ++ b) = true := by
  cases a with
  | nil => exact absurd rfl ha
  | cons c t => simpa [okHead] using h

theorem append_ne_nil_right (a : List Char) {b : List Char} (hb : b ≠ []) : a ++ b ≠ [] := by
  simp [List.append_eq_nil, hb]

theorem okLast_append_right (a : List Char) {b : List Char} (hb : b ≠ [])
    (h : okLast b = true) : okLast (a ++ b) = true := by
  unfold okLast at *
  rw [List.reverse_append]
  have hbr : b.reverse ≠ [] := by simpa using hb
  exact okHead_append_left _ hbr h

theorem stripL_append_of_okLast {a b : List Char} (ha : okHead a = true) (hna : a ≠ [])
    (hb : b ≠ []) (h : okLast b = true) : stripL (a ++ b) = a ++ b :=
  stripL_eq_self (okHead_append_left _ hna ha) (okLast_append_right _ hb h)

/-! ## Toolkit: string-level corollaries -/

theorem data_ne_nil {s : String} (h : s ≠ "") : s.data ≠ [] := by
  intro hd
  exact h (String.ext hd)

theorem pyStrip_data (s : String) : (pyStrip s).data = stripL s.data := rfl

theorem pyStrip_eq_self {s : String} (h1 : okHead s.data = true) (h2 : okLast s.data = true) :
    pyStrip s = s :=
  String.ext (stripL_eq_self h1 h2)

theorem pyStrip_idem (s : String) : pyStrip (pyStrip s) = pyStrip s :=
  String.ext (stripL_idem s.data)

theorem str_append_ne_empty_left {a : String} (ha : a ≠ "") (b : String) : a ++ b ≠ "" := by
  intro h
  have : (a ++ b).data = [] := by rw [h]
  rw [String.data_append] at this
  exact data_ne_nil ha (List.append_eq_nil.mp this).1

theorem str_append_ne_empty_right (a : String) {b : String} (hb : b ≠ "") : a ++ b ≠ "" := by
  intro h
  have : (a ++ b).data = [] := by rw [h]
  rw [String.data_append] at this
  exact data_ne_nil hb (List.append_eq_nil.mp this).2

/-! ## Toolkit: the Python string order -/

theorem char_toNat_inj {a b : Char} (h : a.toNat = b.toNat) : a = b := by
  have := congrArg Char.ofNat h
  rwa [Char.ofNat_toNat, Char.ofNat_toNat] at this

theorem lexLe_total : ∀ x y : List Char, lexLe x y = true ∨ lexLe y x = true := by
  intro x
  induction x with
  | nil => intro y; left; rfl
  | cons a as ih =>
    intro y
    cases y with
    | nil => right; rfl
    | cons b bs =>
      simp only [lexLe]
      rcases Nat.lt_trichotomy a.toNat b.toNat with h | h | h
      · left; simp [h]
      · have hne : ¬ a.toNat < b.toNat := by omega
        have hne' : ¬ b.toNat < a.toNat := by omega
        rcases ih bs with h2 | h2
        · left; simp [hne, hne', h2]
        · right; simp [hne, hne', h2]
      · right; simp [h]

theorem lexLe_trans : ∀ x y z : List Char,
    lexLe x y = true → lexLe y z = true → lexLe x z = true := by
  intro x
  induction x with
  | nil => intro y z _ _; rfl
  | cons a as ih =>
    intro y z hxy hyz
    cases y with
    | nil => simp [lexLe] at hxy
    | cons b bs =>
      cases z with
      | nil => simp [lexLe] at hyz
      | cons c cs =>
        simp only [lexLe] at hxy hyz ⊢
        rcases Nat.lt_trichotomy a.toNat b.toNat with h1 | h1 | h1
        · rcases Nat.lt_trichotomy b.toNat c.toNat with h2 | h2 | h2
          · simp [show a.toNat < c.toNat by omega]
          · simp [show a.toNat < c.toNat by omega]
          · simp [show ¬ b.toNat < c.toNat by omega, h2] at hyz
        · rcases Nat.lt_trichotomy b.toNat c.toNat with h2 | h2 | h2
          · simp [show a.toNat < c.toNat by omega]
          · have hxy' : lexLe as bs = true := by
              simpa [show ¬ a.toNat < b.toNat by omega, show ¬ b.toNat < a.toNat by omega]
                using hxy
            have hyz' : lexLe bs cs = true := by
              simpa [show ¬ b.toNat < c.toNat by omega, show ¬ c.toNat < b.toNat by omega]
                using hyz
            simp [show ¬ a.toNat < c.toNat by omega, show ¬ c.toNat < a.toNat by omega,
              ih bs cs hxy' hyz']
          · simp [show ¬ b.toNat < c.toNat by omega, h2] at hyz
        · simp [show ¬ a.toNat < b.toNat by omega, h1] at hxy

theorem lexLe_antisymm : ∀ x y : List Char,
    lexLe x y = true → lexLe y x = true → x = y := by
  intro x
  induction x with
  | nil =>
    intro y _ hyx
    cases y with
    | nil => rfl
    | cons b bs => simp [lexLe] at hyx
  | cons a as ih =>
    intro y hxy hyx
    cases y with
    | nil => simp [lexLe] at hxy
    | cons b bs =>
      simp only [lexLe] at hxy hyx
      rcases Nat.lt_trichotomy a.toNat b.toNat with h1 | h1 | h1
      · simp [show ¬ b.toNat < a.toNat by omega, h1] at hyx
      · have hxy' : lexLe as bs = true := by
          simpa [show ¬ a.toNat < b.toNat by omega, show ¬ b.toNat < a.toNat by omega] using hxy
        have hyx' : lexLe bs as = true := by
          simpa [show ¬ a.toNat < b.toNat by omega, show ¬ b.toNat < a.toNat by omega] using hyx
        rw [char_toNat_inj h1, ih bs hxy' hyx']
      · simp [show ¬ a.toNat < b.toNat by omega, h1] at hxy

instance : IsTotal String strLe :=
  ⟨fun a b => by
    unfold strLe
    rcases lexLe_total a.data b.data with h | h
    · exact Or.inl h
    · exact Or.inr h⟩

instance : IsTrans String strLe :=
  ⟨fun a b c hab hbc => lexLe_trans a.data b.data c.data hab hbc⟩

instance : IsAntisymm String strLe :=
  ⟨fun a b hab hba => String.ext (lexLe_antisymm a.data b.data hab hba)⟩

/-! ## Toolkit: decimal renderings end in a digit -/

theorem pySpace_digit {m : Nat} (h : m < 10) : pySpace (Char.ofNat (48 + m)) = false := by
  interval_cases m <;> decide

theorem natChars_ne_nil (n : Nat) : natChars n ≠ [] := by
  unfold natChars natCharsAux
  by_cases h : n < 10
  · simp [h]
  · simp only [h, if_false]
    exact append_ne_nil_right _ (by simp)

theorem okLast_natChars (n : Nat) : okLast (natChars n) = true := by
  unfold natChars natCharsAux
  by_cases h : n < 10
  · simp only [h, if_true]
    show okHead [Char.ofNat (48 + n)].reverse = true
    simp [okHead, pySpace_digit h]
  · simp only [h, if_false]
    refine okLast_append_right _ (by simp) ?_
    show okHead [Char.ofNat (48 + n % 10)].reverse = true
    simp [okHead, pySpace_digit (Nat.mod_lt n (by omega))]

theorem natToStr_ne_empty (n : Nat) : natToStr n ≠ "" := by
  intro h
  exact natChars_ne_nil n (by simpa using congrArg String.data h)

/-! ## Toolkit: structure of the emitted query text -/

theorem exceptQueryStr_eq (t1 t2 cols : String) (wc : Option String) :
    exceptQueryStr t1 t2 cols wc = "\n" ++ exceptBodyStr t1 t2 cols wc := by
  apply String.ext
  have h : ("\nSELECT " : String).data = ("\n" : String).data ++ ("SELECT " : String).data := by
    decide
  simp [exceptQueryStr, exceptBodyStr, String.data_append, h, List.append_assoc]

theorem okHead_exceptBody (t1 t2 cols : String) (wc : Option String) :
    okHead (exceptBodyStr t1 t2 cols wc).data = true := by
  simp only [exceptBodyStr, String.data_append, List.append_assoc]
  exact okHead_append_left _ (by decide) (by decide)

theorem data_exceptQueryStr (t1 t2 cols : String) (wc : Option String) :
    (exceptQueryStr t1 t2 cols wc).data = '\n' :: (exceptBodyStr t1 t2 cols wc).data := by
  rw [exceptQueryStr_eq, String.data_append]
  rfl

theorem stripL_newline_body {b : List Char} (hb : okHead b = true) :
    stripL ('\n' :: b) = rstripL b := by
  unfold stripL
  have h1 : lstripL ('\n' :: b) = b := by
    show List.dropWhile pySpace ('\n' :: b) = b
    rw [List.dropWhile_cons]
    simp only [show pySpace '\n' = true from by decide, if_true]
    exact lstripL_eq_self hb
  rw [h1]

theorem pyStrip_exceptQueryStr (t1 t2 cols : String) (wc : Option String) :
    pyStrip (exceptQueryStr t1 t2 cols wc) = rstripS (exceptBodyStr t1 t2 cols wc) := by
  apply String.ext
  rw [pyStrip_data, data_exceptQueryStr, stripL_newline_body (okHead_exceptBody t1 t2 cols wc)]
  rfl

-- sanity checks on the embedding
example : pySplitS '.' "a.b.c" = ["a", "b", "c"] := by decide
example : pySplitS '.' "a..b" = ["a", "", "b"] := by decide
example : pySplitS '.' "" = [""] := by decide
example : pyStrip "  x  " = "x" := by decide
example : normalize_where_clause (some "x > 1") = some "where x > 1" := by decide
example : normalize_where_clause (some "  WHERE x") = some "WHERE x" := by decide
example : normalize_where_clause (some " ") = some "where " := by decide
example : normalize_order_by_clause (some "col desc") = some "order by col desc" := by decide
example : build_column_list none (some ["b", "a", "c"]) = "a, b, c" := by decide
example : natToStr 10 = "10" := by decide
example :
    build_except_distinct_query "t1" "t2" "a" none none (some 10) none =
      "SELECT a FROM t1\nEXCEPT DISTINCT\nSELECT a FROM t2 LIMIT 10" := by decide
example :
    build_except_distinct_query "t1" "t2" "a" none none none (some "exclusive_to_A") =
      "SELECT *, 'exclusive_to_A' as source_table FROM (\nSELECT a FROM t1\nEXCEPT DISTINCT\nSELECT a FROM t2)" := by
  decide


/-! ## Toolkit: string-level head/tail preservation under append -/

theorem okHead_data_append {a : String} (b : String) (ha : a ≠ "")
    (h : okHead a.data = true) : okHead (a ++ b).data = true := by
  rw [String.data_append]
  exact okHead_append_left _ (data_ne_nil ha) h

theorem okLast_data_append (a : String) {b : String} (hb : b ≠ "")
    (h : okLast b.data = true) : okLast (a ++ b).data = true := by
  rw [String.data_append]
  exact okLast_append_right _ (data_ne_nil hb) h

theorem lit_split_source_table :
    ("' as source_table FROM (" : String).data =
      ("' as source_table" : String).data ++ (" FROM (" : String).data := by decide

theorem lit_split_plain_wrap :
    ("SELECT * FROM (" : String).data =
      ("SELECT *" : String).data ++ (" FROM (" : String).data := by decide

theorem okLast_natToStr (n : Nat) : okLast (natToStr n).data = true := okLast_natChars n

/-- The reduced outer-wrapped form of `build_except_distinct_query` when a
truthy source label is present (before stripping). -/
theorem okHead_labeled_chain (label eq' : String) :
    okHead ("SELECT *, '" ++ label ++ "' as source_table" ++ " FROM (" ++ eq' ++ ")").data
      = true := by
  simp only [String.data_append, List.append_assoc]
  exact okHead_append_left _ (by decide) (by decide)

theorem okHead_plain_chain (eq' : String) :
    okHead ("SELECT *" ++ " FROM (" ++ eq' ++ ")").data = true := by
  simp only [String.data_append, List.append_assoc]
  exact okHead_append_left _ (by decide) (by decide)

/-- C2 helper, no-ordering labeled case. -/
theorem buildExcept_labeled (t1 t2 cols : String) (wc : Option String) (label : String)
    (hl : label ≠ "") :
    build_except_distinct_query t1 t2 cols wc none none (some label) =
      labeledWrap label (exceptQueryStr t1 t2 cols wc) := by
  simp only [build_except_distinct_query, truthyS, truthyN, hl, decide_not, decide_False,
    Bool.not_false, Bool.or_false, Bool.true_or, if_true, if_false, Bool.false_eq_true,
    Option.getD_some]
  rw [pyStrip_eq_self (okHead_labeled_chain label _)
    (okLast_data_append _ (show (")" : String) ≠ "" by decide) (by decide))]
  apply String.ext
  simp [labeledWrap, String.data_append, List.append_assoc, lit_split_source_table]

/-- C2 helper, labeled case with an ordering clause appended. -/
theorem buildExcept_labeled_ordered (t1 t2 cols : String) (wc : Option String)
    (label ob : String) (hl : label ≠ "") (hob : ob ≠ "") (hlast : okLast ob.data = true) :
    build_except_distinct_query t1 t2 cols wc (some ob) none (some label) =
      labeledWrap label (exceptQueryStr t1 t2 cols wc) ++ " " ++ ob := by
  simp only [build_except_distinct_query, truthyS, truthyN, hl, hob, decide_not, decide_False,
    Bool.not_false, Bool.or_false, Bool.true_or, Bool.or_true, if_true, if_false,
    Bool.false_eq_true, Option.getD_some]
  rw [pyStrip_eq_self (okHead_data_append _
      (str_append_ne_empty_right _ (show (" " : String) ≠ "" by decide))
      (okHead_data_append _ (str_append_ne_empty_right _ (show (")" : String) ≠ "" by decide))
        (okHead_labeled_chain label _)))
    (okLast_data_append _ hob hlast)]
  apply String.ext
  simp [labeledWrap, String.data_append, List.append_assoc, lit_split_source_table]

/-- C2 helper, ordering clause without a label. -/
theorem buildExcept_plain_ordered (t1 t2 cols : String) (wc : Option String)
    (ob : String) (hob : ob ≠ "") (hlast : okLast ob.data = true) :
    build_except_distinct_query t1 t2 cols wc (some ob) none none =
      plainWrap (exceptQueryStr t1 t2 cols wc) ++ " " ++ ob := by
  simp only [build_except_distinct_query, truthyS, truthyN, hob, decide_not, decide_False,
    Bool.not_false, Bool.or_false, Bool.false_or, Bool.true_or, Bool.or_true, if_true,
    if_false, Bool.false_eq_true, Option.getD_some]
  rw [pyStrip_eq_self (okHead_data_append _
      (str_append_ne_empty_right _ (show (" " : String) ≠ "" by decide))
      (okHead_data_append _ (str_append_ne_empty_right _ (show (")" : String) ≠ "" by decide))
        (okHead_plain_chain _)))
    (okLast_data_append _ hob hlast)]
  apply String.ext
  simp [plainWrap, String.data_append, List.append_assoc, lit_split_plain_wrap]

/-- C2 helper, no augmentation: the stripped inner set-difference query. -/
theorem buildExcept_unwrapped (t1 t2 cols : String) (wc : Option String) :
    build_except_distinct_query t1 t2 cols wc none none none =
      rstripS (exceptBodyStr t1 t2 cols wc) := by
  simp only [build_except_distinct_query, truthyS, truthyN, decide_not, decide_False,
    Bool.not_false, Bool.or_false, if_true, if_false, Bool.false_eq_true]
  exact pyStrip_exceptQueryStr t1 t2 cols wc

/-! ## Toolkit: limit placement -/

theorem buildExcept_limit_unwrapped (t1 t2 cols : String) (wc : Option String) (n : Nat)
    (hn : n ≠ 0) :
    build_except_distinct_query t1 t2 cols wc none (some n) none =
      exceptBodyStr t1 t2 cols wc ++ " LIMIT " ++ natToStr n := by
  simp only [build_except_distinct_query, truthyS, truthyN, hn, decide_not, decide_False,
    Bool.not_false, Bool.or_false, if_true, if_false, Bool.false_eq_true, Option.getD_some]
  apply String.ext
  rw [pyStrip_data]
  have hdata : ((exceptQueryStr t1 t2 cols wc ++ " LIMIT ") ++ natToStr n).data
      = '\n' :: ((exceptBodyStr t1 t2 cols wc ++ " LIMIT ") ++ natToStr n).data := by
    simp [String.data_append, data_exceptQueryStr, List.append_assoc]
  have hok : okHead ((exceptBodyStr t1 t2 cols wc ++ " LIMIT ") ++ natToStr n).data = true := by
    simp only [exceptBodyStr, String.data_append, List.append_assoc]
    exact okHead_append_left _ (by decide) (by decide)
  have hlast : okLast ((exceptBodyStr t1 t2 cols wc ++ " LIMIT ") ++ natToStr n).data = true :=
    okLast_data_append _ (natToStr_ne_empty n) (okLast_natToStr n)
  rw [hdata, stripL_newline_body hok]
  exact rstripL_eq_self hlast

theorem buildExcept_labeled_limit (t1 t2 cols : String) (wc : Option String)
    (label : String) (n : Nat) (hl : label ≠ "") (hn : n ≠ 0) :
    build_except_distinct_query t1 t2 cols wc none (some n) (some label) =
      labeledWrap label (exceptQueryStr t1 t2 cols wc) ++ " LIMIT " ++ natToStr n := by
  simp only [build_except_distinct_query, truthyS, truthyN, hl, hn, decide_not, decide_False,
    Bool.not_false, Bool.or_false, Bool.true_or, if_true, if_false, Bool.false_eq_true,
    Option.getD_some]
  rw [pyStrip_eq_self
    (okHead_data_append _ (str_append_ne_empty_right _ (show (" LIMIT " : String) ≠ "" by decide))
      (okHead_data_append _ (str_append_ne_empty_right _ (show (")" : String) ≠ "" by decide))
        (okHead_labeled_chain label _)))
    (okLast_data_append _ (natToStr_ne_empty n) (okLast_natToStr n))]
  apply String.ext
  simp [labeledWrap, String.data_append, List.append_assoc, lit_split_source_table]

theorem buildExcept_labeled_ordered_limit (t1 t2 cols : String) (wc : Option String)
    (label ob : String) (n : Nat) (hl : label ≠ "") (hob : ob ≠ "") (hn : n ≠ 0) :
    build_except_distinct_query t1 t2 cols wc (some ob) (some n) (some label) =
      labeledWrap label (exceptQueryStr t1 t2 cols wc) ++ " " ++ ob ++ " LIMIT " ++ natToStr n := by
  simp only [build_except_distinct_query, truthyS, truthyN, hl, hob, hn, decide_not, decide_False,
    Bool.not_false, Bool.or_false, Bool.true_or, Bool.or_true, if_true, if_false,
    Bool.false_eq_true, Option.getD_some]
  rw [pyStrip_eq_self
    (okHead_data_append _ (str_append_ne_empty_right _ (show (" LIMIT " : String) ≠ "" by decide))
      (okHead_data_append _ (str_append_ne_empty_right _ hob)
        (okHead_data_append _ (str_append_ne_empty_right _ (show (" " : String) ≠ "" by decide))
          (okHead_data_append _ (str_append_ne_empty_right _ (show (")" : String) ≠ "" by decide))
            (okHead_labeled_chain label _)))))
    (okLast_data_append _ (natToStr_ne_empty n) (okLast_natToStr n))]
  apply String.ext
  simp [labeledWrap, String.data_append, List.append_assoc, lit_split_source_table]

theorem buildExcept_plain_ordered_limit (t1 t2 cols : String) (wc : Option String)
    (ob : String) (n : Nat) (hob : ob ≠ "") (hn : n ≠ 0) :
    build_except_distinct_query t1 t2 cols wc (some ob) (some n) none =
      plainWrap (exceptQueryStr t1 t2 cols wc) ++ " " ++ ob ++ " LIMIT " ++ natToStr n := by
  simp only [build_except_distinct_query, truthyS, truthyN, hob, hn, decide_not, decide_False,
    Bool.not_false, Bool.or_false, Bool.false_or, Bool.true_or, Bool.or_true, if_true, if_false,
    Bool.false_eq_true, Option.getD_some]
  rw [pyStrip_eq_self
    (okHead_data_append _ (str_append_ne_empty_right _ (show (" LIMIT " : String) ≠ "" by decide))
      (okHead_data_append _ (str_append_ne_empty_right _ hob)
        (okHead_data_append _ (str_append_ne_empty_right _ (show (" " : String) ≠ "" by decide))
          (okHead_data_append _ (str_append_ne_empty_right _ (show (")" : String) ≠ "" by decide))
            (okHead_plain_chain _)))))
    (okLast_data_append _ (natToStr_ne_empty n) (okLast_natToStr n))]
  apply String.ext
  simp [plainWrap, String.data_append, List.append_assoc, lit_split_plain_wrap]

/-! ## Toolkit: union composition -/

theorem lit_split_close_space :
    ((") " : String)).data = ((")" : String)).data ++ ((" " : String)).data := by decide

theorem build_union_query_none (qs : List String) :
    build_union_query qs none =
      String.intercalate " UNION ALL " (qs.map (fun q => "(" ++ q ++ ")")) := rfl

theorem build_union_query_ordered (qs : List String) (ob : String) (hob : ob ≠ "") :
    build_union_query qs (some ob) =
      plainWrap (String.intercalate " UNION ALL " (qs.map (fun q => "(" ++ q ++ ")"))) ++
        " " ++ ob := by
  simp only [build_union_query, truthyS, hob, decide_not, decide_False, Bool.not_false,
    if_true, Option.getD_some]
  apply String.ext
  simp [plainWrap, String.data_append, List.append_assoc, lit_split_close_space]

theorem intercalate_two (sep x y : String) :
    String.intercalate sep [x, y] = x ++ sep ++ y := by
  simp [String.intercalate, String.intercalate.go]

/-! ## Toolkit: clause normalization -/

theorem isPrefixOf_append_self : ∀ (a t : List Char), a.isPrefixOf (a ++ t) = true := by
  intro a
  induction a with
  | nil => intro t; simp [List.isPrefixOf]
  | cons c cs ih => intro t; simp [List.isPrefixOf, ih t]

theorem okLast_pyStrip (s : String) : okLast (pyStrip s).data = true := by
  rw [pyStrip_data]
  exact okLast_rstripL _

theorem okHead_pyStrip (s : String) : okHead (pyStrip s).data = true := by
  rw [pyStrip_data]
  exact okHead_rstripL (okHead_lstripL _)

theorem startsWith_where_prepended (x : String) :
    pyStartsWith (pyLower ("where " ++ x)) "where" = true := by
  show ("where" : String).data.isPrefixOf ((("where " ++ x) : String).data.map Char.toLower) = true
  rw [String.data_append, List.map_append]
  have h1 : (("where " : String)).data.map Char.toLower = ("where" : String).data ++ [' '] := by
    decide
  rw [h1, List.append_assoc]
  exact isPrefixOf_append_self _ _

theorem startsWith_order_by_prepended (x : String) :
    pyStartsWith (pyLower ("order by " ++ x)) "order by" = true := by
  show ("order by" : String).data.isPrefixOf ((("order by " ++ x) : String).data.map Char.toLower) = true
  rw [String.data_append, List.map_append]
  have h1 : (("order by " : String)).data.map Char.toLower = ("order by" : String).data ++ [' '] := by
    decide
  rw [h1, List.append_assoc]
  exact isPrefixOf_append_self _ _

/-- If the stripped fragment already starts with `where` (case-insensitively),
normalization returns exactly the stripped fragment. -/
theorem normalize_where_keeps (s : String)
    (hw : pyStartsWith (pyLower (pyStrip s)) "where" = true) :
    normalize_where_clause (some s) = some (pyStrip s) := by
  by_cases hs : s = ""
  · subst hs
    exact absurd hw (by decide)
  · simp [normalize_where_clause, hs, hw]

/-- If the stripped fragment already starts with `order by`
(case-insensitively), normalization returns exactly the stripped fragment. -/
theorem normalize_order_keeps (s : String)
    (hw : pyStartsWith (pyLower (pyStrip s)) "order by" = true) :
    normalize_order_by_clause (some s) = some (pyStrip s) := by
  by_cases hs : s = ""
  · subst hs
    exact absurd hw (by decide)
  · simp [normalize_order_by_clause, hs, hw]

/-- Normalization of a truthy fragment: strip, then prepend the keyword
exactly when the stripped fragment does not already start with it. -/
theorem normalize_where_some (s : String) (hs : s ≠ "") :
    normalize_where_clause (some s) =
      (if pyStartsWith (pyLower (pyStrip s)) "where" = true then some (pyStrip s)
       else some ("where " ++ pyStrip s)) := by
  simp [normalize_where_clause, hs]

/-- Idempotence of `normalize_where_clause` on fragments with non-whitespace
content. -/
theorem normalize_where_idem (s : String) (h : pyStrip s ≠ "") :
    normalize_where_clause (normalize_where_clause (some s)) =
      normalize_where_clause (some s) := by
  have hs : s ≠ "" := by
    intro he
    apply h
    rw [he]
    decide
  rw [normalize_where_some s hs]
  by_cases hw : pyStartsWith (pyLower (pyStrip s)) "where" = true
  · rw [if_pos hw]
    have h2 : pyStrip (pyStrip s) = pyStrip s := pyStrip_idem s
    simp [normalize_where_clause, h, h2, hw]
  · rw [if_neg hw]
    have hne : ("where " ++ pyStrip s) ≠ "" :=
      str_append_ne_empty_left (by decide) _
    have hstrip : pyStrip ("where " ++ pyStrip s) = "where " ++ pyStrip s :=
      pyStrip_eq_self (okHead_data_append _ (by decide) (by decide))
        (okLast_data_append _ h (okLast_pyStrip s))
    have hw2 : pyStartsWith (pyLower ("where " ++ pyStrip s)) "where" = true :=
      startsWith_where_prepended _
    simp [normalize_where_clause, hne, hstrip, hw2]

/-! ## Toolkit: schema analysis equations -/

theorem analyze_common_eq (schema1 schema2 : List (String × String)) (s : String)
    (hs : s ≠ "") :
    (analyze_schemas schema1 schema2 (some s)).common_columns =
      (specifiedColsOf s).dedup.filter
        (fun c => decide (c ∈ (schema1.map Prod.fst).dedup) &&
          decide (c ∈ (schema2.map Prod.fst).dedup)) := by
  simp [analyze_schemas, truthyS, hs]

theorem analyze_missing_eq (schema1 schema2 : List (String × String)) (s : String)
    (hs : s ≠ "") :
    (analyze_schemas schema1 schema2 (some s)).missing_specified_cols =
      (specifiedColsOf s).dedup.filter
        (fun c => decide (c ∉ (analyze_schemas schema1 schema2 (some s)).common_columns)) := by
  simp [analyze_schemas, truthyS, hs]

theorem analyze_identical_eq (schema1 schema2 : List (String × String))
    (specific : Option String) :
    (analyze_schemas schema1 schema2 specific).schemas_identical =
      (decide (schema1.length = schema2.length) &&
       (analyze_schemas schema1 schema2 specific).schema_mismatches.isEmpty &&
       !truthyS specific) := by
  simp [analyze_schemas]

theorem list_isEmpty_false_of_ne_nil {α : Type} {l : List α} (h : l ≠ []) :
    l.isEmpty = false := by
  cases l with
  | nil => exact absurd rfl h
  | cons a t => rfl

/-! ## Toolkit: execution traces -/

theorem execute_noCommon (env : BQEnv)
    (t1f t2f p1 d1 n1 p2 d2 n2 : String) (wc ob spec : Option String)
    (hcommon : (analyze_schemas env.schema1 env.schema2 spec).common_columns = []) :
    execute_comparison env t1f t2f p1 d1 n1 p2 d2 n2 wc ob spec =
      (Outcome.noCommonColumns,
        [QEvent.schemaQ (schemaQueryStr p1 d1 n1), QEvent.schemaQ (schemaQueryStr p2 d2 n2)]) := by
  simp [execute_comparison, hcommon]

theorem execute_pass (env : BQEnv)
    (t1f t2f p1 d1 n1 p2 d2 n2 : String) (wc ob spec : Option String)
    (hcommon : (analyze_schemas env.schema1 env.schema2 spec).common_columns ≠ [])
    (hdiff : env.hasDifferences = false) :
    execute_comparison env t1f t2f p1 d1 n1 p2 d2 n2 wc ob spec =
      (Outcome.pass,
        [QEvent.schemaQ (schemaQueryStr p1 d1 n1), QEvent.schemaQ (schemaQueryStr p2 d2 n2),
         QEvent.rowCountQ (build_row_count_query t1f (normalize_where_clause wc)),
         QEvent.rowCountQ (build_row_count_query t2f (normalize_where_clause wc)),
         QEvent.existenceQ (diffCheckQueryStr t1f t2f
           (build_column_list spec
             (some (analyze_schemas env.schema1 env.schema2 spec).common_columns))
           (normalize_where_clause wc))]) := by
  simp [execute_comparison, list_isEmpty_false_of_ne_nil hcommon, hdiff]

theorem execute_fail (env : BQEnv)
    (t1f t2f p1 d1 n1 p2 d2 n2 : String) (wc ob spec : Option String)
    (hcommon : (analyze_schemas env.schema1 env.schema2 spec).common_columns ≠ [])
    (hdiff : env.hasDifferences = true) :
    execute_comparison env t1f t2f p1 d1 n1 p2 d2 n2 wc ob spec =
      (Outcome.fail,
        [QEvent.schemaQ (schemaQueryStr p1 d1 n1), QEvent.schemaQ (schemaQueryStr p2 d2 n2),
         QEvent.rowCountQ (build_row_count_query t1f (normalize_where_clause wc)),
         QEvent.rowCountQ (build_row_count_query t2f (normalize_where_clause wc)),
         QEvent.existenceQ (diffCheckQueryStr t1f t2f
           (build_column_list spec
             (some (analyze_schemas env.schema1 env.schema2 spec).common_columns))
           (normalize_where_clause wc)),
         QEvent.sampleQ (build_except_distinct_query t1f t2f
           (build_column_list spec
             (some (analyze_schemas env.schema1 env.schema2 spec).common_columns))
           (normalize_where_clause wc) (normalize_order_by_clause ob) (some 10) none),
         QEvent.sampleQ (build_except_distinct_query t2f t1f
           (build_column_list spec
             (some (analyze_schemas env.schema1 env.schema2 spec).common_columns))
           (normalize_where_clause wc) (normalize_order_by_clause ob) (some 10) none),
         QEvent.exportQ (build_union_query
           [build_except_distinct_query t1f t2f
              (build_column_list spec
                (some (analyze_schemas env.schema1 env.schema2 spec).common_columns))
              (normalize_where_clause wc) none none (some ("exclusive_to_" ++ n1)),
            build_except_distinct_query t2f t1f
              (build_column_list spec
                (some (analyze_schemas env.schema1 env.schema2 spec).common_columns))
              (normalize_where_clause wc) none none (some ("exclusive_to_" ++ n2))]
           (normalize_order_by_clause ob))]) := by
  simp [execute_comparison, list_isEmpty_false_of_ne_nil hcommon, hdiff]

/-! ## Claim theorems -/

/-- C4 counterexample: on the whitespace-only fragment `" "`,
`normalize_where_clause` is not idempotent — the first application yields
`some "where "` (with a trailing space) and the second strips it to
`some "where"`. -/
theorem c4_counterexample :
    normalize_where_clause (normalize_where_clause (some " ")) ≠
      normalize_where_clause (some " ") := by decide

/-- C4 (amended): `normalize_where_clause` maps `None` and the empty fragment
to `None`; it is idempotent on every fragment whose stripped form is
non-empty (idempotence fails precisely on non-empty whitespace-only
fragments); and on every non-empty fragment it trims whitespace and prepends
the `where` keyword exactly when the trimmed fragment does not already start
with it case-insensitively. -/
theorem c4_normalize_where_amended :
    normalize_where_clause none = none ∧
    normalize_where_clause (some "") = none ∧
    (∀ s : String, pyStrip s ≠ "" →
      normalize_where_clause (normalize_where_clause (some s)) =
        normalize_where_clause (some s)) ∧
    (∀ s : String, s ≠ "" →
      normalize_where_clause (some s) =
        (if pyStartsWith (pyLower (pyStrip s)) "where" = true then some (pyStrip s)
         else some ("where " ++ pyStrip s))) :=
  ⟨rfl, rfl, normalize_where_idem, normalize_where_some⟩

/-- C4 witness: the amended idempotence instantiated at the concrete fragment
`"x = 1"`. -/
theorem c4_normalize_where_amended_witness :
    pyStrip "x = 1" ≠ "" ∧
    normalize_where_clause (normalize_where_clause (some "x = 1")) =
      normalize_where_clause (some "x = 1") :=
  ⟨by decide, c4_normalize_where_amended.2.2.1 "x = 1" (by decide)⟩

/-- C9: a fragment whose stripped form already starts with the clause keyword
case-insensitively is returned stripped, with its original keyword casing
untouched and without a second copy of the keyword; likewise for the
`order by` normalizer. -/
theorem c9_normalize_keeps_existing_keyword :
    (∀ s : String, pyStartsWith (pyLower (pyStrip s)) "where" = true →
      normalize_where_clause (some s) = some (pyStrip s)) ∧
    (∀ s : String, pyStartsWith (pyLower (pyStrip s)) "order by" = true →
      normalize_order_by_clause (some s) = some (pyStrip s)) :=
  ⟨normalize_where_keeps, normalize_order_keeps⟩

/-- C9 witness: a mixed-case `WHERE` fragment with surrounding whitespace is
trimmed but otherwise untouched. -/
theorem c9_normalize_keeps_existing_keyword_witness :
    pyStartsWith (pyLower (pyStrip "  WHERE x > 1 ")) "where" = true ∧
    normalize_where_clause (some "  WHERE x > 1 ") = some "WHERE x > 1" := by
  refine ⟨by decide, ?_⟩
  have h := c9_normalize_keeps_existing_keyword.1 "  WHERE x > 1 " (by decide)
  rw [h]
  decide

/-- C5 counterexample: the path `"a..b"` has an empty middle segment, yet
`parse_table_path` accepts it, because the code checks only that splitting on
`.` yields exactly three parts, not that the parts are non-empty. -/
theorem c5_counterexample :
    parse_table_path "a..b" = Except.ok ("a", "", "b") ∧
      "" ∈ pySplitS '.' "a..b" :=
  ⟨by rfl, by decide⟩

/-- C5 (amended): parsing a relation path succeeds if and only if splitting on
`.` yields exactly three (possibly empty) segments; on any malformed path the
process exits with status 1 and no queries are issued. -/
theorem c5_parse_table_path_amended :
    (∀ s : String,
      (∃ a b c, parse_table_path s = Except.ok (a, b, c)) ↔
        (pySplitS '.' s).length = 3) ∧
    (∀ (env : BQEnv) (t1 t2 : String) (wc ob spec : Option String) (e : String),
      (parse_table_path t1 = Except.error e ∨ parse_table_path t2 = Except.error e) →
      main_run env t1 t2 wc ob spec = (1, none, [])) := by
  constructor
  · intro s
    constructor
    · rintro ⟨a, b, c, h⟩
      unfold parse_table_path at h
      rcases hp : pySplitS '.' s with _ | ⟨x, _ | ⟨y, _ | ⟨z, _ | ⟨w, ws⟩⟩⟩⟩ <;>
        rw [hp] at h <;> simp_all
    · intro hlen
      rcases hp : pySplitS '.' s with _ | ⟨x, _ | ⟨y, _ | ⟨z, _ | ⟨w, ws⟩⟩⟩⟩ <;>
        simp [hp] at hlen ⊢
      exact ⟨x, y, z, by unfold parse_table_path; rw [hp]⟩
  · intro env t1 t2 wc ob spec e h
    rcases h with h | h
    · simp [main_run, h]
    · rcases hp : parse_table_path t1 with e1 | ⟨p1, d1, n1⟩
      · simp [main_run, hp]
      · simp [main_run, hp, h]

/-- C5 witness: the malformed path `"a.b"` (two segments) makes the run exit
with status 1 without issuing any query. -/
theorem c5_parse_table_path_amended_witness :
    parse_table_path "a.b" =
      Except.error "Table path must be in format 'project.dataset.table', got: a.b" ∧
    main_run envW "a.b" "p.d.t" none none none = (1, none, []) :=
  ⟨by rfl,
   c5_parse_table_path_amended.2 envW "a.b" "p.d.t" none none none
     "Table path must be in format 'project.dataset.table', got: a.b"
     (Or.inl (by rfl))⟩

/-- C6: `build_column_list` returns a truthy explicit column string verbatim
regardless of the derived set; otherwise a non-empty derived set is rendered
as the sorted, comma-space-joined list, deterministically (invariant under
permutation of the set's iteration order); otherwise the wildcard `*`.
Includes the concrete instances from the specification. -/
theorem c6_build_column_list :
    (∀ s : String, s ≠ "" → ∀ common : Option (List String),
      build_column_list (some s) common = s) ∧
    (∀ l : List String, l ≠ [] →
      build_column_list none (some l) = String.intercalate ", " (sortStrings l)) ∧
    (∀ l1 l2 : List String, l1.Perm l2 →
      build_column_list none (some l1) = build_column_list none (some l2)) ∧
    build_column_list none none = "*" ∧
    build_column_list none (some ["b", "a", "c"]) = "a, b, c" := by
  have hbase : ∀ l : List String, l ≠ [] →
      build_column_list none (some l) = String.intercalate ", " (sortStrings l) := by
    intro l hl
    simp [build_column_list, truthyS, truthyL, list_isEmpty_false_of_ne_nil hl]
  refine ⟨?_, hbase, ?_, rfl, by decide⟩
  · intro s hs common
    simp [build_column_list, truthyS, hs]
  · intro l1 l2 hperm
    by_cases h1 : l1 = []
    · subst h1
      have h2 : l2 = [] := hperm.symm.eq_nil
      subst h2
      rfl
    · have h2 : l2 ≠ [] := fun he => h1 (by rw [he] at hperm; exact hperm.eq_nil)
      rw [hbase l1 h1, hbase l2 h2]
      have hsort : sortStrings l1 = sortStrings l2 := by
        apply List.eq_of_perm_of_sorted (r := strLe)
        · exact (List.perm_insertionSort strLe l1).trans
            (hperm.trans (List.perm_insertionSort strLe l2).symm)
        · exact List.sorted_insertionSort strLe l1
        · exact List.sorted_insertionSort strLe l2
      rw [hsort]

/-- C6 witness: the explicit-precedence clause at a concrete explicit string
and the sorted rendering of a permuted concrete set. -/
theorem c6_build_column_list_witness :
    ("company_name, values" : String) ≠ "" ∧
    build_column_list (some "company_name, values") (some ["a", "b"]) =
      "company_name, values" ∧
    (["c", "b", "a"] : List String).Perm ["b", "a", "c"] ∧
    build_column_list none (some ["c", "b", "a"]) =
      build_column_list none (some ["b", "a", "c"]) :=
  ⟨by decide,
   c6_build_column_list.1 "company_name, values" (by decide) (some ["a", "b"]),
   by decide,
   c6_build_column_list.2.2.1 ["c", "b", "a"] ["b", "a", "c"] (by decide)⟩

/-- C2: when a truthy source label is supplied, with or without an ordering
clause, the emitted text is exactly one labeled outer projection
`SELECT *, '<label>' as source_table FROM (...)` around the inner
EXCEPT DISTINCT query (never two nested wraps); an ordering clause alone
yields exactly one `SELECT *` wrap with the ordering on the outer query; with
neither augmentation the inner query is returned unwrapped (only stripped of
the surrounding whitespace of the literal). -/
theorem c2_except_distinct_wrapping :
    (∀ (t1 t2 cols : String) (wc : Option String) (label : String), label ≠ "" →
      build_except_distinct_query t1 t2 cols wc none none (some label) =
        labeledWrap label (exceptQueryStr t1 t2 cols wc)) ∧
    (∀ (t1 t2 cols : String) (wc : Option String) (label ob : String),
      label ≠ "" → ob ≠ "" → okLast ob.data = true →
      build_except_distinct_query t1 t2 cols wc (some ob) none (some label) =
        labeledWrap label (exceptQueryStr t1 t2 cols wc) ++ " " ++ ob) ∧
    (∀ (t1 t2 cols : String) (wc : Option String) (ob : String),
      ob ≠ "" → okLast ob.data = true →
      build_except_distinct_query t1 t2 cols wc (some ob) none none =
        plainWrap (exceptQueryStr t1 t2 cols wc) ++ " " ++ ob) ∧
    (∀ (t1 t2 cols : String) (wc : Option String),
      build_except_distinct_query t1 t2 cols wc none none none =
        rstripS (exceptBodyStr t1 t2 cols wc)) :=
  ⟨buildExcept_labeled,
   fun t1 t2 cols wc label ob hl hob hlast =>
     buildExcept_labeled_ordered t1 t2 cols wc label ob hl hob hlast,
   fun t1 t2 cols wc ob hob hlast => buildExcept_plain_ordered t1 t2 cols wc ob hob hlast,
   buildExcept_unwrapped⟩

/-- C2 witness: the specification's own example — label `exclusive_to_A`, no
ordering clause — produces exactly one labeled wrap. -/
theorem c2_except_distinct_wrapping_witness :
    ("exclusive_to_A" : String) ≠ "" ∧
    build_except_distinct_query "p.d.A" "p.d.B" "a, b" none none none
        (some "exclusive_to_A") =
      labeledWrap "exclusive_to_A" (exceptQueryStr "p.d.A" "p.d.B" "a, b" none) :=
  ⟨by decide,
   c2_except_distinct_wrapping.1 "p.d.A" "p.d.B" "a, b" none "exclusive_to_A" (by decide)⟩

/-- C7: `build_union_query` joins the parenthesized sub-queries with
`UNION ALL`; an ordering clause produces exactly one outer `SELECT *` wrap
with the ordering applied once after the union — for two sub-queries the
branches appear verbatim inside the union and the ordering text follows the
closing parenthesis. -/
theorem c7_build_union_query :
    (∀ qs : List String,
      build_union_query qs none =
        String.intercalate " UNION ALL " (qs.map (fun q => "(" ++ q ++ ")"))) ∧
    (∀ (qs : List String) (ob : String), ob ≠ "" →
      build_union_query qs (some ob) =
        plainWrap (String.intercalate " UNION ALL " (qs.map (fun q => "(" ++ q ++ ")"))) ++
          " " ++ ob) ∧
    (∀ (q1 q2 ob : String), ob ≠ "" →
      build_union_query [q1, q2] (some ob) =
        "SELECT * FROM ((" ++ q1 ++ ") UNION ALL (" ++ q2 ++ ")) " ++ ob) := by
  refine ⟨build_union_query_none, build_union_query_ordered, ?_⟩
  intro q1 q2 ob hob
  rw [build_union_query_ordered [q1, q2] ob hob]
  simp only [List.map_cons, List.map_nil, intercalate_two]
  apply String.ext
  have hA : ("SELECT * FROM ((" : String).data =
      ("SELECT * FROM (" : String).data ++ ("(" : String).data := by decide
  have hB : (") UNION ALL (" : String).data =
      (")" : String).data ++ ((" UNION ALL " : String).data ++ ("(" : String).data) := by decide
  have hC : ((")) " : String)).data =
      (")" : String).data ++ ((")" : String).data ++ ((" " : String)).data) := by decide
  simp [plainWrap, String.data_append, List.append_assoc, hA, hB, hC]

/-- C7 witness: two concrete sub-queries and an ordering clause. -/
theorem c7_build_union_query_witness :
    ("order by x" : String) ≠ "" ∧
    build_union_query ["SELECT 1", "SELECT 2"] (some "order by x") =
      "SELECT * FROM ((SELECT 1) UNION ALL (SELECT 2)) order by x" := by
  refine ⟨by decide, ?_⟩
  have h := c7_build_union_query.2.2 "SELECT 1" "SELECT 2" "order by x" (by decide)
  rw [h]
  decide

/-- C10: a truthy row cap alone never triggers wrapping — the LIMIT clause is
appended directly after the unwrapped inner EXCEPT DISTINCT query; and
whenever wrapping occurs (label and/or ordering clause), the LIMIT is
appended last, after the outer ordering clause, so the emitted text carries a
single LIMIT clause in final position. -/
theorem c10_limit_placement :
    (∀ (t1 t2 cols : String) (wc : Option String) (n : Nat), n ≠ 0 →
      build_except_distinct_query t1 t2 cols wc none (some n) none =
        exceptBodyStr t1 t2 cols wc ++ " LIMIT " ++ natToStr n) ∧
    (∀ (t1 t2 cols : String) (wc : Option String) (label : String) (n : Nat),
      label ≠ "" → n ≠ 0 →
      build_except_distinct_query t1 t2 cols wc none (some n) (some label) =
        labeledWrap label (exceptQueryStr t1 t2 cols wc) ++ " LIMIT " ++ natToStr n) ∧
    (∀ (t1 t2 cols : String) (wc : Option String) (label ob : String) (n : Nat),
      label ≠ "" → ob ≠ "" → n ≠ 0 →
      build_except_distinct_query t1 t2 cols wc (some ob) (some n) (some label) =
        labeledWrap label (exceptQueryStr t1 t2 cols wc) ++ " " ++ ob ++
          " LIMIT " ++ natToStr n) ∧
    (∀ (t1 t2 cols : String) (wc : Option String) (ob : String) (n : Nat),
      ob ≠ "" → n ≠ 0 →
      build_except_distinct_query t1 t2 cols wc (some ob) (some n) none =
        plainWrap (exceptQueryStr t1 t2 cols wc) ++ " " ++ ob ++
          " LIMIT " ++ natToStr n) :=
  ⟨buildExcept_limit_unwrapped,
   fun t1 t2 cols wc label n hl hn => buildExcept_labeled_limit t1 t2 cols wc label n hl hn,
   fun t1 t2 cols wc label ob n hl hob hn =>
     buildExcept_labeled_ordered_limit t1 t2 cols wc label ob n hl hob hn,
   fun t1 t2 cols wc ob n hob hn => buildExcept_plain_ordered_limit t1 t2 cols wc ob n hob hn⟩

/-- C10 witness: the sample-query shape — cap 10, no label, no ordering —
appends the LIMIT directly to the unwrapped inner query. -/
theorem c10_limit_placement_witness :
    (10 : Nat) ≠ 0 ∧
    build_except_distinct_query "p.d.A" "p.d.B" "a" none none (some 10) none =
      exceptBodyStr "p.d.A" "p.d.B" "a" none ++ " LIMIT " ++ natToStr 10 :=
  ⟨by decide, c10_limit_placement.1 "p.d.A" "p.d.B" "a" none 10 (by decide)⟩

theorem list_isEmpty_true_iff {α : Type} {l : List α} : l.isEmpty = true ↔ l = [] := by
  cases l <;> simp

/-- C3: the fully-identical flag holds exactly when the two schema lists have
equal length, there are no type mismatches, and no truthy column subset is in
effect — so a truthy subset always forces the flag to `false`; moreover every
specified name missing from either schema's column set lands in
`missing_specified_cols` and is excluded from the common-column set. -/
theorem c3_analyze_schemas_subset :
    (∀ (schema1 schema2 : List (String × String)) (specific : Option String),
      ((analyze_schemas schema1 schema2 specific).schemas_identical = true ↔
        (schema1.length = schema2.length ∧
         (analyze_schemas schema1 schema2 specific).schema_mismatches = [] ∧
         truthyS specific = false))) ∧
    (∀ (schema1 schema2 : List (String × String)) (s : String), s ≠ "" →
      (analyze_schemas schema1 schema2 (some s)).schemas_identical = false ∧
      ∀ name ∈ specifiedColsOf s,
        (name ∉ schema1.map Prod.fst ∨ name ∉ schema2.map Prod.fst) →
        name ∈ (analyze_schemas schema1 schema2 (some s)).missing_specified_cols ∧
        name ∉ (analyze_schemas schema1 schema2 (some s)).common_columns) := by
  constructor
  · intro schema1 schema2 specific
    rw [analyze_identical_eq]
    simp [Bool.and_eq_true, decide_eq_true_eq, list_isEmpty_true_iff, Bool.not_eq_true',
      and_assoc]
  · intro schema1 schema2 s hs
    have hts : truthyS (some s) = true := by simp [truthyS, hs]
    constructor
    · rw [analyze_identical_eq]
      simp [hts]
    · intro name hname habs
      have hncommon : name ∉ (analyze_schemas schema1 schema2 (some s)).common_columns := by
        rw [analyze_common_eq _ _ _ hs]
        intro hmem
        rcases List.mem_filter.mp hmem with ⟨_, hp⟩
        simp only [Bool.and_eq_true, decide_eq_true_eq, List.mem_dedup] at hp
        rcases habs with h | h
        · exact h hp.1
        · exact h hp.2
      refine ⟨?_, hncommon⟩
      rw [analyze_missing_eq _ _ _ hs]
      apply List.mem_filter.mpr
      refine ⟨List.mem_dedup.mpr hname, ?_⟩
      simpa using hncommon

/-- C3 witness: subset `"a, zz"` against schemas that both contain only `a`:
`zz` is reported missing and excluded, and the flag is forced `false` even
though the subset is satisfied on the common part. -/
theorem c3_analyze_schemas_subset_witness :
    ("a, zz" : String) ≠ "" ∧
    (analyze_schemas [("a", "INT64")] [("a", "INT64")] (some "a, zz")).schemas_identical
      = false ∧
    "zz" ∈ specifiedColsOf "a, zz" ∧
    ("zz" ∉ ([("a", "INT64")] : List (String × String)).map Prod.fst ∨
      "zz" ∉ ([("a", "INT64")] : List (String × String)).map Prod.fst) ∧
    "zz" ∈ (analyze_schemas [("a", "INT64")] [("a", "INT64")]
      (some "a, zz")).missing_specified_cols ∧
    "zz" ∉ (analyze_schemas [("a", "INT64")] [("a", "INT64")]
      (some "a, zz")).common_columns := by
  have h := c3_analyze_schemas_subset.2 [("a", "INT64")] [("a", "INT64")] "a, zz" (by decide)
  have h2 := h.2 "zz" (by decide) (Or.inl (by decide))
  exact ⟨by decide, h.1, by decide, Or.inl (by decide), h2.1, h2.2⟩

/-- C1: in any run that reaches the difference-detection step (non-empty
common-column set), sample or export queries are issued if and only if the
existence check reported differences; with no differences the verdict is
PASS and no sample/export query is issued; with differences the verdict is
FAIL and the trace contains both direction-bounded sample queries (cap 10)
and the labeled-union export query. -/
theorem c1_sampling_iff_differences
    (env : BQEnv) (t1f t2f p1 d1 n1 p2 d2 n2 : String) (wc ob spec : Option String)
    (hcommon : (analyze_schemas env.schema1 env.schema2 spec).common_columns ≠ []) :
    (((∃ q, QEvent.sampleQ q ∈
        (execute_comparison env t1f t2f p1 d1 n1 p2 d2 n2 wc ob spec).2) ∨
      (∃ q, QEvent.exportQ q ∈
        (execute_comparison env t1f t2f p1 d1 n1 p2 d2 n2 wc ob spec).2)) ↔
      env.hasDifferences = true) ∧
    (env.hasDifferences = false →
      (execute_comparison env t1f t2f p1 d1 n1 p2 d2 n2 wc ob spec).1 = Outcome.pass) ∧
    (env.hasDifferences = true →
      (execute_comparison env t1f t2f p1 d1 n1 p2 d2 n2 wc ob spec).1 = Outcome.fail ∧
      QEvent.sampleQ (build_except_distinct_query t1f t2f
          (build_column_list spec
            (some (analyze_schemas env.schema1 env.schema2 spec).common_columns))
          (normalize_where_clause wc) (normalize_order_by_clause ob) (some 10) none) ∈
        (execute_comparison env t1f t2f p1 d1 n1 p2 d2 n2 wc ob spec).2 ∧
      QEvent.sampleQ (build_except_distinct_query t2f t1f
          (build_column_list spec
            (some (analyze_schemas env.schema1 env.schema2 spec).common_columns))
          (normalize_where_clause wc) (normalize_order_by_clause ob) (some 10) none) ∈
        (execute_comparison env t1f t2f p1 d1 n1 p2 d2 n2 wc ob spec).2 ∧
      QEvent.exportQ (build_union_query
          [build_except_distinct_query t1f t2f
            (build_column_list spec
              (some (analyze_schemas env.schema1 env.schema2 spec).common_columns))
            (normalize_where_clause wc) none none (some ("exclusive_to_" ++ n1)),
           build_except_distinct_query t2f t1f
            (build_column_list spec
              (some (analyze_schemas env.schema1 env.schema2 spec).common_columns))
            (normalize_where_clause wc) none none (some ("exclusive_to_" ++ n2))]
          (normalize_order_by_clause ob)) ∈
        (execute_comparison env t1f t2f p1 d1 n1 p2 d2 n2 wc ob spec).2) := by
  cases hdiff : env.hasDifferences with
  | false =>
    simp [execute_pass env t1f t2f p1 d1 n1 p2 d2 n2 wc ob spec hcommon hdiff]
  | true =>
    simp [execute_fail env t1f t2f p1 d1 n1 p2 d2 n2 wc ob spec hcommon hdiff]

/-- C1 witness: a concrete environment with differences and the default CLI
arguments; the sample/export issuance is equivalent to the difference
report. -/
theorem c1_sampling_iff_differences_witness :
    (analyze_schemas envW.schema1 envW.schema2 none).common_columns ≠ [] ∧
    (((∃ q, QEvent.sampleQ q ∈
        (execute_comparison envW "p.d.t1" "p.d.t2" "p" "d" "t1" "p" "d" "t2"
          none none none).2) ∨
      (∃ q, QEvent.exportQ q ∈
        (execute_comparison envW "p.d.t1" "p.d.t2" "p" "d" "t1" "p" "d" "t2"
          none none none).2)) ↔
      envW.hasDifferences = true) :=
  ⟨by decide,
   (c1_sampling_iff_differences envW "p.d.t1" "p.d.t2" "p" "d" "t1" "p" "d" "t2"
     none none none (by decide)).1⟩

/-- C8: with an empty common-column set the run stops right after the two
schema queries — no row-count, existence, sample or export query is issued —
with the dedicated "no common columns" outcome, which is neither PASS nor
FAIL; through `main`, the process still exits with status 0 (not an error). -/
theorem c8_no_common_columns
    (env : BQEnv) (t1f t2f p1 d1 n1 p2 d2 n2 : String) (wc ob spec : Option String)
    (hcommon : (analyze_schemas env.schema1 env.schema2 spec).common_columns = []) :
    (execute_comparison env t1f t2f p1 d1 n1 p2 d2 n2 wc ob spec).1 =
      Outcome.noCommonColumns ∧
    (execute_comparison env t1f t2f p1 d1 n1 p2 d2 n2 wc ob spec).2 =
      [QEvent.schemaQ (schemaQueryStr p1 d1 n1), QEvent.schemaQ (schemaQueryStr p2 d2 n2)] ∧
    (∀ e ∈ (execute_comparison env t1f t2f p1 d1 n1 p2 d2 n2 wc ob spec).2,
      ∃ q, e = QEvent.schemaQ q) ∧
    Outcome.noCommonColumns ≠ Outcome.pass ∧
    Outcome.noCommonColumns ≠ Outcome.fail ∧
    (∀ t1 t2 : String,
      parse_table_path t1 = Except.ok (p1, d1, n1) →
      parse_table_path t2 = Except.ok (p2, d2, n2) →
      main_run env t1 t2 wc ob spec =
        (0, some Outcome.noCommonColumns,
         [QEvent.schemaQ (schemaQueryStr p1 d1 n1),
          QEvent.schemaQ (schemaQueryStr p2 d2 n2)])) := by
  have hex := execute_noCommon env t1f t2f p1 d1 n1 p2 d2 n2 wc ob spec hcommon
  refine ⟨by rw [hex], by rw [hex], ?_, by decide, by decide, ?_⟩
  · intro e he
    rw [hex] at he
    simp only [List.mem_cons, List.mem_singleton, List.not_mem_nil, or_false] at he
    rcases he with h | h
    · exact ⟨_, h⟩
    · exact ⟨_, h⟩
  · intro t1 t2 h1 h2
    simp [main_run, h1, h2,
      execute_noCommon env t1 t2 p1 d1 n1 p2 d2 n2 wc ob spec hcommon]

/-- C8 witness: disjoint schemas — the run terminates as "no common columns"
after the two schema queries. -/
theorem c8_no_common_columns_witness :
    (analyze_schemas envW3.schema1 envW3.schema2 none).common_columns = [] ∧
    (execute_comparison envW3 "p.d.t1" "p.d.t2" "p" "d" "t1" "p" "d" "t2"
        none none none).1 = Outcome.noCommonColumns :=
  ⟨by decide,
   (c8_no_common_columns envW3 "p.d.t1" "p.d.t2" "p" "d" "t1" "p" "d" "t2"
     none none none (by decide)).1⟩
